import Mathlib

/-!
Verification of `gitcomposer` (src/src/gitcomposer/main.py), a CLI that reads a
repository's staged diff, asks the external `gemini` CLI for a commit message,
confirms with the user, and runs `git commit`.

The program is a single linear workflow over external processes.  We embed it
shallowly: an `Env` records the observations the program makes of the outside
world (whether `gemini` resolves on PATH, whether `<path>/.git` is a directory,
the outcome of each subprocess invocation, the user's answer to the
confirmation prompt), and `cli` is a pure function from a path and an `Env` to
a trace of `Event`s (echoes to stdout/stderr, external process invocations,
the confirmation prompt), mirroring `main.py` statement by statement.
Exceptions (`subprocess.CalledProcessError`, `FileNotFoundError`) are modelled
with `Except`/`Option`, and the top-level `try/except` as an explicit handler.
-/

namespace GitComposer

/-- A single quote character, kept out of string literals. -/
def sq : String := String.singleton (Char.ofNat 39)

/-- Result of a subprocess that actually ran: exit code and captured streams
(`subprocess.run(..., capture_output=True, text=True)`). -/
structure ProcResult where
  exitCode : Nat
  stdout : String
  stderr : String
  deriving Repr, DecidableEq

/-- Outcome of attempting `subprocess.run`: either the executable was not
found (Python raises `FileNotFoundError`, no process runs) or a process ran
to completion with a `ProcResult`. -/
inductive ProcOutcome where
  | notFound
  | ran (r : ProcResult)
  deriving Repr, DecidableEq

/-- The exceptions the code can raise inside its `try` block:
`subprocess.CalledProcessError` (carrying `e.cmd` and `e.stderr`) from
`check=True` on a non-zero exit, and `FileNotFoundError`. -/
inductive RunErr where
  | calledProcessError (cmd : List String) (stderr : String)
  | fileNotFound
  deriving Repr, DecidableEq

/-- Observable actions of one run: `click.echo` to stdout, `click.echo(err=True)`
to stderr, an external process invocation with its argument vector, and the
`click.confirm` prompt with its default. -/
inductive Event where
  | echoOut (s : String)
  | echoErr (s : String)
  | runCmd (cmd : List String)
  | confirmAsk (text : String) (defaultYes : Bool)
  deriving Repr, DecidableEq

/-- The external world as observed by one run of the command. -/
structure Env where
  /-- `shutil.which("gemini")` succeeds. -/
  whichGemini : Bool
  /-- `os.path.isdir(os.path.join(path, ".git"))`. -/
  gitDirIsDir : Bool
  /-- Outcome of `subprocess.run(["git", "diff", "--staged"], cwd=path, ...)`. -/
  diffRun : ProcOutcome
  /-- Outcome of `subprocess.run(["gemini", "chat", prompt], ...)`. -/
  geminiRun : ProcOutcome
  /-- The user's answer to `click.confirm`: `none` is bare enter. -/
  confirmInput : Option Bool
  /-- Outcome of `subprocess.run(["git", "commit", "-m", msg], cwd=path, ...)`. -/
  commitRun : ProcOutcome
  deriving Repr, DecidableEq

/-- Python `str.strip()`: remove leading and trailing whitespace characters. -/
def pyStrip (s : String) : String :=
  String.mk (((s.data.dropWhile Char.isWhitespace).reverse.dropWhile
    Char.isWhitespace).reverse)

/-- `subprocess.run(cmd, ..., check=True)` on an outcome: a missing executable
raises `FileNotFoundError`; a non-zero exit raises `CalledProcessError`
carrying the literal command and the captured stderr; otherwise the result is
returned. -/
def runChecked (cmd : List String) : ProcOutcome → Except RunErr ProcResult
  | ProcOutcome.notFound => Except.error RunErr.fileNotFound
  | ProcOutcome.ran r =>
      if r.exitCode ≠ 0 then Except.error (RunErr.calledProcessError cmd r.stderr)
      else Except.ok r

/-- The invocation events of a `subprocess.run` attempt: a process is invoked
exactly when the executable resolves (even if it then exits non-zero). -/
def invokeEvents (cmd : List String) : ProcOutcome → List Event
  | ProcOutcome.notFound => []
  | ProcOutcome.ran _ => [Event.runCmd cmd]

-- The literal message strings of main.py.

/-- Line 21: missing-gemini error. -/
def msgGeminiNotInstalled : String :=
  "Error: The " ++ sq ++ "gemini" ++ sq ++ " CLI is not installed or not in your PATH."

/-- Line 24: installation hint. -/
def msgGeminiInstall : String :=
  "Please install it using: npm install -g @google/gemini-cli"

/-- Line 32: not-a-repository error. -/
def msgNotARepo : String := "Error: The provided path is not a Git repository."

/-- Line 46: empty staged diff report. -/
def msgNoStaged : String :=
  "No staged changes to commit. Use " ++ sq ++ "git add" ++ sq ++
  " to stage your changes."

/-- Line 60. -/
def msgSending : String :=
  "Sending staged changes to Gemini to generate a commit message..."

/-- Line 67. -/
def msgSuggestedHeader : String := "\n✨ Suggested Commit Message ✨"

/-- Lines 68 and 70. -/
def sepLine : String := "---------------------------------"

/-- Line 76: the confirmation prompt text. -/
def msgConfirm : String := "\nDo you want to commit with this message?"

/-- Line 78. -/
def msgAborted : String := "Commit aborted by user."

/-- Line 82. -/
def msgCommitting : String := "Committing changes..."

/-- Line 92. -/
def msgCommitSuccess : String := "\n✅ Commit successful!"

/-- Line 96. -/
def msgExternalError : String :=
  "\nAn error occurred while running an external command:"

/-- Lines 100-102: `FileNotFoundError` handler message. -/
def msgGitNotFound : String :=
  "Error: " ++ sq ++ "git" ++ sq ++
  " command not found. Make sure Git is installed and in your PATH."

/-- Lines 50-53: the fixed instruction text of the prompt, up to and not
including the opening diff delimiter. -/
def promptIntro : String :=
  "You are an expert programmer. Your task is to write a concise and conventional " ++
  "commit message based on the following git diff. The message should be in the imperative mood, " ++
  "for example, " ++ sq ++ "Add feature" ++ sq ++ " not " ++ sq ++ "Added feature" ++ sq ++
  ". Do not include any preamble or backticks.\n\n"

/-- Lines 50-58: the prompt string, with the diff interpolated between the
fixed delimiters. -/
def mkPrompt (git_diff : String) : String :=
  promptIntro ++ "--- GIT DIFF ---\n" ++ git_diff ++
  "\n--- END GIT DIFF ---\n\n" ++ "Commit message:"

/-- Line 36: the staged-diff command. -/
def cmdDiff : List String := ["git", "diff", "--staged"]

/-- Lines 30-93: the body of the `try` block.  Returns the events produced
up to the point of return or exception, together with the exception, if any,
to be handled by the `except` clauses. -/
def tryBody (env : Env) : List Event × Option RunErr :=
  if env.gitDirIsDir = false then
    ([Event.echoErr msgNotARepo], none)
  else
    let evD := invokeEvents cmdDiff env.diffRun
    match runChecked cmdDiff env.diffRun with
    | Except.error e => (evD, some e)
    | Except.ok diff_process =>
      let git_diff := diff_process.stdout
      if git_diff = "" then
        (evD ++ [Event.echoOut msgNoStaged], none)
      else
        let prompt := mkPrompt git_diff
        let cmdGemini := ["gemini", "chat", prompt]
        let evG := evD ++ [Event.echoOut msgSending] ++
          invokeEvents cmdGemini env.geminiRun
        match runChecked cmdGemini env.geminiRun with
        | Except.error e => (evG, some e)
        | Except.ok gemini_process =>
          let commit_message := pyStrip gemini_process.stdout
          let evM := evG ++ [Event.echoOut msgSuggestedHeader,
            Event.echoOut sepLine, Event.echoOut commit_message,
            Event.echoOut sepLine, Event.confirmAsk msgConfirm true]
          if env.confirmInput.getD true = false then
            (evM ++ [Event.echoOut msgAborted], none)
          else
            let cmdCommit := ["git", "commit", "-m", commit_message]
            let evC := evM ++ [Event.echoOut msgCommitting] ++
              invokeEvents cmdCommit env.commitRun
            match runChecked cmdCommit env.commitRun with
            | Except.error e => (evC, some e)
            | Except.ok commit_process =>
              (evC ++ [Event.echoOut msgCommitSuccess,
                Event.echoOut commit_process.stdout], none)

/-- Lines 95-103: the `except` clauses.  Each exception the body can raise is
matched by a clause that echoes diagnostics to stderr and returns normally;
an unmatched exception would propagate as `Except.error`. -/
def catchExc : Option RunErr → Except RunErr (List Event)
  | none => Except.ok []
  | some (RunErr.calledProcessError cmd st) =>
      Except.ok [Event.echoErr msgExternalError,
        Event.echoErr ("Command: " ++ String.intercalate " " cmd),
        Event.echoErr ("Error Message: " ++ st)]
  | some RunErr.fileNotFound => Except.ok [Event.echoErr msgGitNotFound]

/-- Lines 13-103: the whole command.  `Except.ok evs` is a normal return with
trace `evs`; `Except.error` would be an uncaught exception escaping `cli`. -/
def cli (path : String) (env : Env) : Except RunErr (List Event) :=
  if env.whichGemini = false then
    Except.ok [Event.echoErr msgGeminiNotInstalled, Event.echoErr msgGeminiInstall]
  else
    let r := tryBody env
    match catchExc r.2 with
    | Except.error e => Except.error e
    | Except.ok handlerEvents =>
        Except.ok (Event.echoOut ("Analyzing repository at: " ++ path) ::
          (r.1 ++ handlerEvents))

/-- The process exit status: normal return of a click command exits 0, an
uncaught exception exits non-zero. -/
def exitCode : Except RunErr (List Event) → Nat
  | Except.ok _ => 0
  | Except.error _ => 1

/-- The trace of a run (empty for an uncaught exception, which never occurs). -/
def cliEvents (path : String) (env : Env) : List Event :=
  match cli path env with
  | Except.ok evs => evs
  | Except.error _ => []

/-- The messages echoed to the error stream, in order. -/
def errMessages (evs : List Event) : List String :=
  evs.filterMap fun e =>
    match e with
    | Event.echoErr s => some s
    | _ => none

/-- The external commands invoked, in order. -/
def runCmdEvents (evs : List Event) : List (List String) :=
  evs.filterMap fun e =>
    match e with
    | Event.runCmd c => some c
    | _ => none

/-- Whether the trace invokes `git commit`. -/
def invokesGitCommit (evs : List Event) : Bool :=
  evs.any fun e =>
    match e with
    | Event.runCmd ("git" :: "commit" :: _) => true
    | _ => false

/-- Whether the trace invokes the AI-chat tool. -/
def invokesGemini (evs : List Event) : Bool :=
  evs.any fun e =>
    match e with
    | Event.runCmd ("gemini" :: _) => true
    | _ => false

end GitComposer

namespace GitComposer

/-- Helper: Python `str.strip()` of an all-whitespace string is empty. -/
theorem pyStrip_of_all_whitespace (s : String)
    (h : s.data.all Char.isWhitespace = true) : pyStrip s = "" := by
  have hnil : s.data.dropWhile Char.isWhitespace = [] := by
    rw [List.dropWhile_eq_nil_iff]
    intro x hx
    exact List.all_eq_true.mp h x hx
  simp [pyStrip, hnil]

/-- C1: in every run that reaches the confirmation prompt and in which the
user declines, the trace is exactly the displayed candidate followed by
"Commit aborted by user." — the run terminates there and `git commit` is
never invoked. -/
theorem c1_decline_aborts_without_commit
    (path : String) (env : Env) (r g : ProcResult)
    (hw : env.whichGemini = true) (hd : env.gitDirIsDir = true)
    (hdr : env.diffRun = ProcOutcome.ran r) (hre : r.exitCode = 0)
    (hrs : r.stdout ≠ "") (hgr : env.geminiRun = ProcOutcome.ran g)
    (hge : g.exitCode = 0) (hci : env.confirmInput = some false) :
    cliEvents path env =
        [Event.echoOut ("Analyzing repository at: " ++ path),
         Event.runCmd cmdDiff, Event.echoOut msgSending,
         Event.runCmd ["gemini", "chat", mkPrompt r.stdout],
         Event.echoOut msgSuggestedHeader, Event.echoOut sepLine,
         Event.echoOut (pyStrip g.stdout), Event.echoOut sepLine,
         Event.confirmAsk msgConfirm true, Event.echoOut msgAborted] ∧
      invokesGitCommit (cliEvents path env) = false := by
  simp [cliEvents, cli, tryBody, runChecked, invokeEvents, catchExc,
    invokesGitCommit, mkPrompt, cmdDiff, hw, hd, hdr, hgr, hci, hre, hge, hrs]

/-- Environment for the C1 witness: everything succeeds, user answers no. -/
def envC1 : Env :=
  ⟨true, true, ProcOutcome.ran ⟨0, "d", ""⟩, ProcOutcome.ran ⟨0, "Fix parser", ""⟩,
    some false, ProcOutcome.ran ⟨0, "", ""⟩⟩

theorem c1_witness :
    Event.echoOut msgAborted ∈ cliEvents "/repo" envC1 ∧
      invokesGitCommit (cliEvents "/repo" envC1) = false := by
  have h := c1_decline_aborts_without_commit "/repo" envC1
    ⟨0, "d", ""⟩ ⟨0, "Fix parser", ""⟩ rfl rfl rfl rfl (by decide) rfl rfl rfl
  rw [h.1]
  exact ⟨by simp, h.1 ▸ h.2⟩

/-- C2: in every run in which the captured staged diff is the empty string,
the trace is exactly the analyzing line, the diff query, and the
"No staged changes to commit. Use 'git add' to stage your changes." report;
the run returns normally (exit 0) and never invokes the AI-chat tool. -/
theorem c2_empty_diff_skips_ai
    (path : String) (env : Env) (r : ProcResult)
    (hw : env.whichGemini = true) (hd : env.gitDirIsDir = true)
    (hdr : env.diffRun = ProcOutcome.ran r) (hre : r.exitCode = 0)
    (hrs : r.stdout = "") :
    cli path env = Except.ok
        [Event.echoOut ("Analyzing repository at: " ++ path),
         Event.runCmd cmdDiff, Event.echoOut msgNoStaged] ∧
      invokesGemini (cliEvents path env) = false ∧
      exitCode (cli path env) = 0 := by
  simp [cliEvents, cli, tryBody, runChecked, invokeEvents, catchExc,
    invokesGemini, exitCode, cmdDiff, hw, hd, hdr, hre, hrs]

/-- Environment for the C2 witness: empty staged diff. -/
def envC2 : Env :=
  ⟨true, true, ProcOutcome.ran ⟨0, "", ""⟩, ProcOutcome.ran ⟨0, "x", ""⟩,
    none, ProcOutcome.ran ⟨0, "", ""⟩⟩

theorem c2_witness :
    Event.echoOut msgNoStaged ∈ cliEvents "/repo" envC2 ∧
      invokesGemini (cliEvents "/repo" envC2) = false := by
  have h := c2_empty_diff_skips_ai "/repo" envC2 ⟨0, "", ""⟩ rfl rfl rfl rfl rfl
  exact ⟨by simp [cliEvents, h.1], h.2.1⟩

/-- C3: for every target directory lacking a `.git` metadata directory, the
error stream holds exactly "Error: The provided path is not a Git repository.",
no external process is invoked, and the run ends right after the report (the
only other output being the fixed analyzing line on stdout). -/
theorem c3_not_a_repo_exact_error
    (path : String) (env : Env)
    (hw : env.whichGemini = true) (hd : env.gitDirIsDir = false) :
    cli path env = Except.ok
        [Event.echoOut ("Analyzing repository at: " ++ path),
         Event.echoErr msgNotARepo] ∧
      errMessages (cliEvents path env) = [msgNotARepo] ∧
      runCmdEvents (cliEvents path env) = [] := by
  simp [cliEvents, cli, tryBody, catchExc, errMessages, runCmdEvents, hw, hd]

/-- Environment for the C3 witness: `<path>/.git` is not a directory. -/
def envC3 : Env :=
  ⟨true, false, ProcOutcome.ran ⟨0, "d", ""⟩, ProcOutcome.ran ⟨0, "x", ""⟩,
    none, ProcOutcome.ran ⟨0, "", ""⟩⟩

theorem c3_witness :
    errMessages (cliEvents "/not-a-repo" envC3) = [msgNotARepo] ∧
      runCmdEvents (cliEvents "/not-a-repo" envC3) = [] := by
  have h := c3_not_a_repo_exact_error "/not-a-repo" envC3 rfl rfl
  exact ⟨h.2.1, h.2.2⟩

/-- C4: for every non-empty staged diff, the argument vector passed to the
AI-chat tool is `gemini chat <prompt>` where the prompt is the fixed
instruction text followed by the diff verbatim, enclosed between the
delimiters "--- GIT DIFF ---" and "--- END GIT DIFF ---", then the fixed
closing line. -/
theorem c4_prompt_embeds_diff_verbatim
    (path : String) (env : Env) (r g : ProcResult)
    (hw : env.whichGemini = true) (hd : env.gitDirIsDir = true)
    (hdr : env.diffRun = ProcOutcome.ran r) (hre : r.exitCode = 0)
    (hrs : r.stdout ≠ "") (hgr : env.geminiRun = ProcOutcome.ran g) :
    Event.runCmd ["gemini", "chat",
        promptIntro ++ "--- GIT DIFF ---\n" ++ r.stdout ++
          "\n--- END GIT DIFF ---\n\n" ++ "Commit message:"] ∈
      cliEvents path env := by
  by_cases hge : g.exitCode = 0
  · by_cases hc : env.confirmInput.getD true = false
    · simp [cliEvents, cli, tryBody, runChecked, invokeEvents, catchExc,
        mkPrompt, hw, hd, hdr, hgr, hre, hrs, hge, hc]
    · rcases hcr : env.commitRun with _ | c
      · simp [cliEvents, cli, tryBody, runChecked, invokeEvents, catchExc,
          mkPrompt, hw, hd, hdr, hgr, hre, hrs, hge, hc, hcr]
      · by_cases hce : c.exitCode = 0
        · simp [cliEvents, cli, tryBody, runChecked, invokeEvents, catchExc,
            mkPrompt, hw, hd, hdr, hgr, hre, hrs, hge, hc, hcr, hce]
        · simp [cliEvents, cli, tryBody, runChecked, invokeEvents, catchExc,
            mkPrompt, hw, hd, hdr, hgr, hre, hrs, hge, hc, hcr, hce]
  · simp [cliEvents, cli, tryBody, runChecked, invokeEvents, catchExc,
      mkPrompt, hw, hd, hdr, hgr, hre, hrs, hge]

/-- Environment for the C4 witness: staged diff "d". -/
def envC4 : Env :=
  ⟨true, true, ProcOutcome.ran ⟨0, "d", ""⟩, ProcOutcome.ran ⟨0, "m", ""⟩,
    none, ProcOutcome.ran ⟨0, "", ""⟩⟩

theorem c4_witness :
    Event.runCmd ["gemini", "chat",
        promptIntro ++ "--- GIT DIFF ---\n" ++ "d" ++
          "\n--- END GIT DIFF ---\n\n" ++ "Commit message:"] ∈
      cliEvents "/repo" envC4 :=
  c4_prompt_embeds_diff_verbatim "/repo" envC4 ⟨0, "d", ""⟩ ⟨0, "m", ""⟩
    rfl rfl rfl rfl (by decide) rfl

/-- C5: the candidate commit message is exactly the AI-chat tool's stdout with
surrounding whitespace stripped; it is displayed, and on bare-enter
confirmation (default yes) `git commit -m` is invoked with exactly that
message, after which the commit tool's stdout is echoed under the success
banner. -/
theorem c5_bare_confirm_commits_trimmed_message
    (path : String) (env : Env) (r g c : ProcResult)
    (hw : env.whichGemini = true) (hd : env.gitDirIsDir = true)
    (hdr : env.diffRun = ProcOutcome.ran r) (hre : r.exitCode = 0)
    (hrs : r.stdout ≠ "") (hgr : env.geminiRun = ProcOutcome.ran g)
    (hge : g.exitCode = 0) (hci : env.confirmInput = none)
    (hcr : env.commitRun = ProcOutcome.ran c) (hce : c.exitCode = 0) :
    Event.echoOut (pyStrip g.stdout) ∈ cliEvents path env ∧
      Event.runCmd ["git", "commit", "-m", pyStrip g.stdout] ∈ cliEvents path env ∧
      Event.echoOut msgCommitSuccess ∈ cliEvents path env ∧
      Event.echoOut c.stdout ∈ cliEvents path env := by
  simp [cliEvents, cli, tryBody, runChecked, invokeEvents, catchExc,
    hw, hd, hdr, hgr, hci, hcr, hre, hge, hce, hrs]

/-- Environment for the C5 witness: Scenario C, bare enter at the prompt. -/
def envC5 : Env :=
  ⟨true, true, ProcOutcome.ran ⟨0, "d", ""⟩,
    ProcOutcome.ran ⟨0, "Fix off-by-one in parser\n", ""⟩,
    none, ProcOutcome.ran ⟨0, "1 file changed", ""⟩⟩

theorem c5_witness :
    Event.runCmd ["git", "commit", "-m", "Fix off-by-one in parser"] ∈
        cliEvents "/repo" envC5 ∧
      Event.echoOut msgCommitSuccess ∈ cliEvents "/repo" envC5 ∧
      Event.echoOut "1 file changed" ∈ cliEvents "/repo" envC5 := by
  have h := c5_bare_confirm_commits_trimmed_message "/repo" envC5
    ⟨0, "d", ""⟩ ⟨0, "Fix off-by-one in parser\n", ""⟩ ⟨0, "1 file changed", ""⟩
    rfl rfl rfl rfl (by decide) rfl rfl rfl rfl rfl
  have hs : pyStrip "Fix off-by-one in parser\n" = "Fix off-by-one in parser" := by
    decide
  rw [hs] at h
  exact ⟨h.2.1, h.2.2.1, h.2.2.2⟩

/-- C6: whenever the `try` block raises `CalledProcessError` — i.e. some
external invocation exited non-zero — the run ends with exactly three error
reports: the fixed banner, "Command: " followed by the literal command line
joined by spaces, and "Error Message: " followed by that process's captured
stderr verbatim; nothing is retried after the handler. -/
theorem c6_external_failure_reported
    (path : String) (env : Env) (evs : List Event) (cmd : List String)
    (st : String) (hw : env.whichGemini = true)
    (hb : tryBody env = (evs, some (RunErr.calledProcessError cmd st))) :
    cli path env = Except.ok
      (Event.echoOut ("Analyzing repository at: " ++ path) ::
        (evs ++ [Event.echoErr msgExternalError,
          Event.echoErr ("Command: " ++ String.intercalate " " cmd),
          Event.echoErr ("Error Message: " ++ st)])) := by
  simp [cli, catchExc, hw, hb]

/-- Environment for the C6 witness: Scenario E, `git commit` exits 1 with
stderr "nothing to commit, working tree clean". -/
def envC6 : Env :=
  ⟨true, true, ProcOutcome.ran ⟨0, "d", ""⟩, ProcOutcome.ran ⟨0, "m", ""⟩,
    none, ProcOutcome.ran ⟨1, "", "nothing to commit, working tree clean"⟩⟩

/-- The events `tryBody` produces on `envC6` before the exception. -/
def evsC6 : List Event :=
  [Event.runCmd cmdDiff, Event.echoOut msgSending,
   Event.runCmd ["gemini", "chat", mkPrompt "d"],
   Event.echoOut msgSuggestedHeader, Event.echoOut sepLine,
   Event.echoOut "m", Event.echoOut sepLine,
   Event.confirmAsk msgConfirm true, Event.echoOut msgCommitting,
   Event.runCmd ["git", "commit", "-m", "m"]]

set_option maxRecDepth 4000 in
theorem c6_witness :
    cli "/repo" envC6 = Except.ok
      (Event.echoOut ("Analyzing repository at: " ++ "/repo") ::
        (evsC6 ++ [Event.echoErr msgExternalError,
          Event.echoErr ("Command: " ++
            String.intercalate " " ["git", "commit", "-m", "m"]),
          Event.echoErr ("Error Message: " ++
            "nothing to commit, working tree clean")])) :=
  c6_external_failure_reported "/repo" envC6 evsC6 ["git", "commit", "-m", "m"]
    "nothing to commit, working tree clean" rfl (by decide)

/-- C7: on every environment — covering the missing-dependency, not-a-repo,
empty-diff, user-abort and external-failure outcomes — the command returns
normally (no uncaught exception) and the process exit status is 0. -/
theorem c7_handled_outcomes_exit_zero (path : String) (env : Env) :
    (∃ evs, cli path env = Except.ok evs) ∧ exitCode (cli path env) = 0 := by
  have h : ∃ hevs, catchExc (tryBody env).2 = Except.ok hevs := by
    rcases (tryBody env).2 with _ | e
    · exact ⟨[], rfl⟩
    · rcases e with ⟨c, s⟩ | _
      · exact ⟨_, rfl⟩
      · exact ⟨_, rfl⟩
  obtain ⟨hevs, hh⟩ := h
  by_cases hw : env.whichGemini = false
  · refine ⟨⟨[Event.echoErr msgGeminiNotInstalled, Event.echoErr msgGeminiInstall],
      ?_⟩, ?_⟩ <;> simp [cli, exitCode, hw]
  · refine ⟨⟨Event.echoOut ("Analyzing repository at: " ++ path) ::
      ((tryBody env).1 ++ hevs), ?_⟩, ?_⟩ <;> simp [cli, exitCode, hw, hh]

/-- C8: a `gemini` executable missing from PATH yields exactly the dedicated
"not installed" message plus the npm installation hint before anything else
happens (no other event, no process invoked); a missing `git` executable
yields its own dedicated not-found message. -/
theorem c8_missing_tools_dedicated_messages :
    (∀ (path : String) (env : Env), env.whichGemini = false →
      cli path env = Except.ok
        [Event.echoErr msgGeminiNotInstalled, Event.echoErr msgGeminiInstall]) ∧
    (∀ (path : String) (env : Env), env.whichGemini = true →
      env.gitDirIsDir = true → env.diffRun = ProcOutcome.notFound →
      cli path env = Except.ok
        [Event.echoOut ("Analyzing repository at: " ++ path),
         Event.echoErr msgGitNotFound]) := by
  constructor
  · intro path env hw
    simp [cli, hw]
  · intro path env hw hd hdr
    simp [cli, tryBody, runChecked, invokeEvents, catchExc, hw, hd, hdr]

/-- Environment for the C8 witness, first part: `gemini` not on PATH. -/
def envC8a : Env :=
  ⟨false, true, ProcOutcome.ran ⟨0, "d", ""⟩, ProcOutcome.ran ⟨0, "m", ""⟩,
    none, ProcOutcome.ran ⟨0, "", ""⟩⟩

/-- Environment for the C8 witness, second part: `git` not found. -/
def envC8b : Env :=
  ⟨true, true, ProcOutcome.notFound, ProcOutcome.ran ⟨0, "m", ""⟩,
    none, ProcOutcome.ran ⟨0, "", ""⟩⟩

theorem c8_witness :
    cli "/repo" envC8a = Except.ok
        [Event.echoErr msgGeminiNotInstalled, Event.echoErr msgGeminiInstall] ∧
      cli "/repo" envC8b = Except.ok
        [Event.echoOut ("Analyzing repository at: " ++ "/repo"),
         Event.echoErr msgGitNotFound] :=
  ⟨c8_missing_tools_dedicated_messages.1 "/repo" envC8a rfl,
   c8_missing_tools_dedicated_messages.2 "/repo" envC8b rfl rfl rfl⟩

/-- C9: with an already-empty staged diff, a run performs only the read-only
diff query (in particular it never invokes `git commit`), so a second run
observing the same pre-diff world — availability, repository marker and diff
unchanged — produces the identical NoStagedChanges trace. -/
theorem c9_empty_diff_idempotent
    (path : String) (e1 e2 : Env) (r : ProcResult)
    (hw : e1.whichGemini = true) (hd : e1.gitDirIsDir = true)
    (hdr : e1.diffRun = ProcOutcome.ran r) (hre : r.exitCode = 0)
    (hrs : r.stdout = "")
    (hw2 : e2.whichGemini = e1.whichGemini)
    (hd2 : e2.gitDirIsDir = e1.gitDirIsDir)
    (hdr2 : e2.diffRun = e1.diffRun) :
    cliEvents path e1 =
        [Event.echoOut ("Analyzing repository at: " ++ path),
         Event.runCmd cmdDiff, Event.echoOut msgNoStaged] ∧
      cliEvents path e2 = cliEvents path e1 ∧
      invokesGitCommit (cliEvents path e1) = false := by
  have h1 : cliEvents path e1 =
      [Event.echoOut ("Analyzing repository at: " ++ path),
       Event.runCmd cmdDiff, Event.echoOut msgNoStaged] := by
    simp [cliEvents, cli, tryBody, runChecked, invokeEvents, catchExc,
      hw, hd, hdr, hre, hrs]
  have h2 : cliEvents path e2 =
      [Event.echoOut ("Analyzing repository at: " ++ path),
       Event.runCmd cmdDiff, Event.echoOut msgNoStaged] := by
    rw [hw] at hw2
    rw [hd] at hd2
    rw [hdr] at hdr2
    simp [cliEvents, cli, tryBody, runChecked, invokeEvents, catchExc,
      hw2, hd2, hdr2, hre, hrs]
  refine ⟨h1, h2.trans h1.symm, ?_⟩
  simp [h1, invokesGitCommit, cmdDiff]

/-- Environment for the C9 witness: empty diff, both runs observe it. -/
def envC9 : Env :=
  ⟨true, true, ProcOutcome.ran ⟨0, "", ""⟩, ProcOutcome.ran ⟨0, "m", ""⟩,
    none, ProcOutcome.ran ⟨0, "", ""⟩⟩

theorem c9_witness :
    cliEvents "/repo" envC9 =
        [Event.echoOut ("Analyzing repository at: " ++ "/repo"),
         Event.runCmd cmdDiff, Event.echoOut msgNoStaged] ∧
      invokesGitCommit (cliEvents "/repo" envC9) = false := by
  have h := c9_empty_diff_idempotent "/repo" envC9 envC9 ⟨0, "", ""⟩
    rfl rfl rfl rfl rfl rfl rfl rfl
  exact ⟨h.1, h.2.2⟩

/-- C10: when the AI-chat stdout is all whitespace, stripping makes the
candidate message the empty string, yet the flow still displays it, still
asks for confirmation, and on a non-declining answer invokes
`git commit -m` with the empty string — no non-emptiness check guards the
candidate anywhere. -/
theorem c10_whitespace_message_commits_empty
    (path : String) (env : Env) (r g c : ProcResult)
    (hw : env.whichGemini = true) (hd : env.gitDirIsDir = true)
    (hdr : env.diffRun = ProcOutcome.ran r) (hre : r.exitCode = 0)
    (hrs : r.stdout ≠ "") (hgr : env.geminiRun = ProcOutcome.ran g)
    (hge : g.exitCode = 0) (hgs : g.stdout.data.all Char.isWhitespace = true)
    (hci : env.confirmInput ≠ some false)
    (hcr : env.commitRun = ProcOutcome.ran c) :
    pyStrip g.stdout = "" ∧
      Event.echoOut (pyStrip g.stdout) ∈ cliEvents path env ∧
      Event.confirmAsk msgConfirm true ∈ cliEvents path env ∧
      Event.runCmd ["git", "commit", "-m", ""] ∈ cliEvents path env := by
  have hstrip : pyStrip g.stdout = "" := pyStrip_of_all_whitespace _ hgs
  have hc : env.confirmInput.getD true ≠ false := by
    rcases hci2 : env.confirmInput with _ | b
    · simp
    · rcases b with _ | _
      · exact absurd hci2 hci
      · simp
  refine ⟨hstrip, ?_⟩
  by_cases hce : c.exitCode = 0
  · simp [cliEvents, cli, tryBody, runChecked, invokeEvents, catchExc,
      hw, hd, hdr, hgr, hcr, hre, hge, hce, hrs, hc, hstrip]
  · simp [cliEvents, cli, tryBody, runChecked, invokeEvents, catchExc,
      hw, hd, hdr, hgr, hcr, hre, hge, hce, hrs, hc, hstrip]

/-- Environment for the C10 witness: AI stdout is whitespace only. -/
def envC10 : Env :=
  ⟨true, true, ProcOutcome.ran ⟨0, "d", ""⟩, ProcOutcome.ran ⟨0, " \n\t ", ""⟩,
    none, ProcOutcome.ran ⟨0, "", ""⟩⟩

theorem c10_witness :
    pyStrip " \n\t " = "" ∧
      Event.runCmd ["git", "commit", "-m", ""] ∈ cliEvents "/repo" envC10 := by
  have h := c10_whitespace_message_commits_empty "/repo" envC10
    ⟨0, "d", ""⟩ ⟨0, " \n\t ", ""⟩ ⟨0, "", ""⟩
    rfl rfl rfl rfl (by decide) rfl rfl (by decide) (by decide) rfl
  exact ⟨h.1, h.2.2.2⟩

end GitComposer
